import Mathlib

/-!
# Verification of the items CRUD service (src/app.py)

A shallow embedding of the Flask CRUD API in `src/app.py`.  Request bodies
are JSON objects, modelled as association lists of scalar JSON values
(composite array/object field values never appear in any behaviour the
claims exercise; on such values Python's `float`/`int` raise `TypeError`,
which lands in the same error branch as a failing string parse).
Timestamps are abstract ticks (`Nat`); the store's `CURRENT_TIMESTAMP`
during one request is `DB.now`.  Rows are modelled with their declared
column types (`TEXT`/`REAL`/`INTEGER`, each nullable), which is the shape
of every row produced through the API with type-correct values.
-/

namespace FlaskCrud

/-- A scalar JSON value, as produced by `request.get_json()` for the field
values the claims exercise.  -/
inductive JValue where
  | null
  | bool (b : Bool)
  | num (q : ℚ)
  | str (s : String)
deriving DecidableEq

/-- A JSON object body: `request.get_json()` for an object payload. -/
abbrev Assoc := List (String × JValue)

/-- Python truthiness of a decoded JSON scalar (`not data[field]`):
`None`, `False`, `0`, `0.0` and `""` are falsy. -/
def jTruthy : JValue → Bool
  | .null => false
  | .bool b => b
  | .num q => q ≠ 0
  | .str s => s ≠ ""

/-- `data[field]` / `field in data` on a decoded JSON object. -/
def jget (data : Assoc) (k : String) : Option JValue :=
  (data.find? (fun p => p.1 == k)).map (fun p => p.2)

/-- Membership test `field in data`. -/
def jmem (data : Assoc) (k : String) : Bool :=
  (jget data k).isSome

/-! ## Python numeric conversion (`float(...)`, `int(...)`)

Modelled from the CPython builtins as they act on JSON-decoded scalars.
`float` accepts numbers, booleans and strings that spell a decimal
literal, an infinity or a NaN; `int` accepts numbers (truncating),
booleans and strings of decimal digits.  (Underscore digit separators
and non-ASCII digits, which CPython also accepts in strings, are omitted:
no claim exercises them.) -/

/-- Result of a successful Python `float(...)` call: a finite value or one
of the non-finite IEEE values that `float("inf")` / `float("nan")`
produce. -/
inductive PyFloat where
  | finite (q : ℚ)
  | inf
  | ninf
  | nan
deriving DecidableEq

/-- Whitespace stripped by Python string-to-number conversion. -/
def isPySpace (c : Char) : Bool :=
  c = ' ' || c = '\t' || c = '\n' || c = '\r' || c = '\x0b' || c = '\x0c'

/-- Strip leading and trailing whitespace from a character list. -/
def stripWs (cs : List Char) : List Char :=
  ((cs.dropWhile isPySpace).reverse.dropWhile isPySpace).reverse

/-- Read an optional sign; returns (isNegative, rest). -/
def splitSign : List Char → (Bool × List Char)
  | '+' :: cs => (false, cs)
  | '-' :: cs => (true, cs)
  | cs => (false, cs)

/-- A nonempty all-digit string read as a natural number. -/
def digitsToNat? (cs : List Char) : Option Nat :=
  if cs ≠ [] ∧ cs.all Char.isDigit then
    some (cs.foldl (fun n c => 10 * n + (c.toNat - '0'.toNat)) 0)
  else
    none

/-- Split a character list at the first occurrence of a separator. -/
def splitAtChar (sep : List Char) (cs : List Char) : (List Char × Option (List Char)) :=
  match cs.findIdx? (fun c => sep.contains c) with
  | none => (cs, none)
  | some i => (cs.take i, some (cs.drop (i + 1)))

/-- The natural-number value of a digit string. -/
def digitsVal (cs : List Char) : Nat :=
  cs.foldl (fun n c => 10 * n + (c.toNat - '0'.toNat)) 0

/-- Parse the unsigned part of a Python float literal —
`digits [. digits] [e [sign] digits]`, where at least one digit must
appear around the decimal point — as an exact (numerator, denominator)
pair. -/
def parseUnsignedFloat (cs : List Char) : Option (Nat × Nat) :=
  let (mant, expPart) := splitAtChar ['e', 'E'] cs
  let (ip, fpOpt) := splitAtChar ['.'] mant
  let fp := fpOpt.getD []
  if ip.all Char.isDigit ∧ fp.all Char.isDigit ∧ (ip ≠ [] ∨ fp ≠ []) then
    let m := digitsVal ip * 10 ^ fp.length + digitsVal fp
    match expPart with
    | none => some (m, 10 ^ fp.length)
    | some ecs =>
      let (eneg, edigits) := splitSign ecs
      match digitsToNat? edigits with
      | none => none
      | some e =>
        if eneg then some (m, 10 ^ fp.length * 10 ^ e)
        else some (m * 10 ^ e, 10 ^ fp.length)
  else
    none

/-- Python `float(s)` for a string `s`. -/
def pyFloatOfString (s : String) : Option PyFloat :=
  let cs := stripWs s.toList
  let (neg, body) := splitSign cs
  let lowered := (body.map Char.toLower).asString
  if lowered = "inf" ∨ lowered = "infinity" then
    some (if neg then .ninf else .inf)
  else if lowered = "nan" then
    some .nan
  else
    (parseUnsignedFloat body).map (fun p =>
      .finite (mkRat (if neg then -(p.1 : ℤ) else (p.1 : ℤ)) p.2))

/-- Python `int(s)` for a string `s`. -/
def pyIntOfString (s : String) : Option ℤ :=
  let cs := stripWs s.toList
  let (neg, body) := splitSign cs
  (digitsToNat? body).map (fun n => if neg then -(n : ℤ) else (n : ℤ))

/-- Python `float(v)` on a JSON-decoded scalar.  `None` raises `TypeError`
(the caller guards it out anyway); booleans convert to 0.0/1.0. -/
def pyFloat : JValue → Option PyFloat
  | .null => none
  | .bool b => some (.finite (if b then 1 else 0))
  | .num q => some (.finite q)
  | .str s => pyFloatOfString s

/-- Python `int(v)` on a JSON-decoded scalar.  A float truncates toward
zero; a string must be all decimal digits (so `int("3.5")` fails). -/
def pyInt : JValue → Option ℤ
  | .null => none
  | .bool b => some (if b then 1 else 0)
  | .num q => some (Int.tdiv q.num (q.den : ℤ))
  | .str s => pyIntOfString s

/-! ## validate_item_data (src/app.py lines 91-116) -/

/-- `validate_item_data(data, required_fields=None)`.  The Python default
argument `None` becomes `['name']` inside the function; `update_item`
calls it with the default, `create_item` passes `['name']` explicitly. -/
def validate_item_data (data : Assoc) (required_fields : Option (List String)) :
    List String :=
  let req := required_fields.getD ["name"]
  let requiredErrors := req.filterMap (fun field =>
    match jget data field with
    | none => some ("'" ++ field ++ "' is required")
    | some v => if jTruthy v then none else some ("'" ++ field ++ "' is required"))
  let priceErrors :=
    match jget data "price" with
    | some v =>
      if v ≠ JValue.null ∧ (pyFloat v).isNone then
        ["'price' must be a valid number"]
      else []
    | none => []
  let quantityErrors :=
    match jget data "quantity" with
    | some v =>
      if v ≠ JValue.null ∧ (pyInt v).isNone then
        ["'quantity' must be a valid integer"]
      else []
    | none => []
  requiredErrors ++ priceErrors ++ quantityErrors

/-! ## Data model (src/app.py lines 43-60)

A row of the `items` table, with its declared column types.  `created_at`
and `updated_at` both default to `CURRENT_TIMESTAMP` of the inserting
statement; the `update_timestamp` trigger refreshes `updated_at` on every
row update. -/

/-- A row of the `items` table. -/
structure Item where
  id : Nat
  name : String
  description : Option String
  category : Option String
  price : Option ℚ
  quantity : Option ℤ
  created_at : Nat
  updated_at : Nat
deriving DecidableEq

/-- The store: the `items` table, the AUTOINCREMENT counter, and the value
`CURRENT_TIMESTAMP` takes during the request being modelled. -/
structure DB where
  items : List Item
  nextId : Nat
  now : Nat
deriving DecidableEq

/-- A query issued against the `items` table (for tracking which handler
paths touch the store). -/
inductive StoreOp where
  | read
  | write
deriving DecidableEq

/-! ## SQL semantics helpers -/

/-- ASCII lowercasing of a string (Python `str.lower()` restricted to the
ASCII inputs the handlers compare against, and SQLite case folding). -/
def strLower (s : String) : String :=
  (s.toList.map Char.toLower).asString

/-- SQLite `LIKE`: `%` matches any sequence, `_` any single character,
and letter comparison is ASCII-case-insensitive.  No ESCAPE clause is used
by the code. -/
def likeMatch : List Char → List Char → Bool
  | [], t => t.isEmpty
  | '%' :: ps, t => t.tails.any (fun suf => likeMatch ps suf)
  | '_' :: _, [] => false
  | '_' :: ps, _ :: ts => likeMatch ps ts
  | _ :: _, [] => false
  | p :: ps, c :: ts => (p.toLower == c.toLower) && likeMatch ps ts

/-- SQLite `LIKE` on strings. -/
def strLike (pattern text : String) : Bool :=
  likeMatch pattern.toList text.toList

/-- The row predicate of the WHERE clause built in `get_items`
(src/app.py lines 178-188).  A falsy (`None` or empty) parameter adds no
condition.  `category = ?` is SQL-false on a NULL category; in
`(name LIKE ? OR description LIKE ?)` a NULL description contributes
SQL-NULL, so only the `name` disjunct can match such rows. -/
def rowMatches (category search : Option String) (i : Item) : Bool :=
  (match category with
   | some c => if c ≠ "" then i.category == some c else true
   | none => true)
  &&
  (match search with
   | some s =>
     if s ≠ "" then
       strLike ("%" ++ s ++ "%") i.name
         || (match i.description with
             | some d => strLike ("%" ++ s ++ "%") d
             | none => false)
     else true
   | none => true)

/-- The columns accepted by the `valid_sort_fields` check
(src/app.py line 191). -/
inductive SortField where
  | id
  | name
  | category
  | price
  | quantity
  | created_at
deriving DecidableEq

/-- `sort_by in valid_sort_fields` (case-sensitive string comparison). -/
def parseSortField : String → Option SortField
  | "id" => some .id
  | "name" => some .name
  | "category" => some .category
  | "price" => some .price
  | "quantity" => some .quantity
  | "created_at" => some .created_at
  | _ => none

/-- SQLite ordering on a nullable REAL column: NULL sorts before every
value. -/
def optRatLe : Option ℚ → Option ℚ → Bool
  | none, _ => true
  | some _, none => false
  | some a, some b => decide (a ≤ b)

/-- SQLite ordering on a nullable INTEGER column. -/
def optIntLe : Option ℤ → Option ℤ → Bool
  | none, _ => true
  | some _, none => false
  | some a, some b => decide (a ≤ b)

/-- SQLite BINARY ordering on a nullable TEXT column (UTF-8 byte order,
which agrees with code-point order). -/
def optStrLe : Option String → Option String → Bool
  | none, _ => true
  | some _, none => false
  | some a, some b => decide (a ≤ b)

/-- The `ORDER BY <field>` comparison for one sortable column. -/
def keyLe : SortField → Item → Item → Bool
  | .id, a, b => decide (a.id ≤ b.id)
  | .name, a, b => decide (a.name ≤ b.name)
  | .category, a, b => optStrLe a.category b.category
  | .price, a, b => optRatLe a.price b.price
  | .quantity, a, b => optIntLe a.quantity b.quantity
  | .created_at, a, b => decide (a.created_at ≤ b.created_at)

/-- Insert into a list sorted by the boolean comparator `le`. -/
def orderedInsert (le : Item → Item → Bool) (a : Item) : List Item → List Item
  | [] => [a]
  | b :: l => if le a b then a :: b :: l else b :: orderedInsert le a l

/-- Insertion sort by a boolean comparator: one realisation of SQLite's
`ORDER BY` (tie order among equal keys is unspecified by SQLite). -/
def insertionSort (le : Item → Item → Bool) : List Item → List Item
  | [] => []
  | a :: l => orderedInsert le a (insertionSort le l)

/-- The comparator `ORDER BY <field> <direction>` sorts by:
`DESC` flips the `ASC` comparison. -/
def itemCmp (f : SortField) (descending : Bool) (a b : Item) : Bool :=
  if descending then keyLe f b a else keyLe f a b

/-- The sorting step of `get_items` (src/app.py lines 190-193): applied
only when `sort_by` is one of the six column names AND the lowercased
`sort_order` is `asc` or `desc`; otherwise no ORDER BY is added. -/
def sortStep (sort_by sort_order : String) (rows : List Item) : List Item :=
  match parseSortField sort_by with
  | some f =>
    let lo := strLower sort_order
    if lo = "asc" ∨ lo = "desc" then
      insertionSort (itemCmp f (lo = "desc")) rows
    else rows
  | none => rows

/-- SQLite `LIMIT ? OFFSET ?`: a negative LIMIT means no limit, a
negative OFFSET is treated as 0. -/
def sqlSlice (rows : List Item) (limit offset : ℤ) : List Item :=
  let dropped := rows.drop (max offset 0).toNat
  if limit < 0 then dropped else dropped.take limit.toNat

/-- Python `//` (floor division), raising `ZeroDivisionError` on a zero
divisor. -/
def pyFloorDiv (a b : ℤ) : Option ℤ :=
  if b = 0 then none else some (Int.fdiv a b)

/-! ## GET /items (src/app.py lines 163-231) -/

/-- The query parameters of a list request.  `request.args.get(name,
default, type=int)` yields the default when the parameter is absent or
does not parse as an integer, so an integer parameter is modelled as
already-parsed-or-absent. -/
structure ListParams where
  page : Option ℤ
  per_page : Option ℤ
  category : Option String
  search : Option String
  sort_by : Option String
  sort_order : Option String

/-- The `pagination` object of a list response. -/
structure Pagination where
  page : ℤ
  per_page : ℤ
  total_items : ℤ
  total_pages : ℤ
  has_next : Bool
  has_prev : Bool
deriving DecidableEq

/-- The `filters` echo object of a list response. -/
structure FiltersEcho where
  category : Option String
  search : Option String
  sort_by : String
  sort_order : String
deriving DecidableEq

/-- A `GET /items` response: 200 with payload, or the generic 500 the
handler's `except` branch produces. -/
inductive ListResp where
  | ok (items : List Item) (pagination : Pagination) (filters : FiltersEcho)
  | serverError
deriving DecidableEq

/-- HTTP status of a list response. -/
def ListResp.status : ListResp → Nat
  | .ok _ _ _ => 200
  | .serverError => 500

/-- The `items` array of a 200 list response. -/
def ListResp.itemsOut : ListResp → Option (List Item)
  | .ok is _ _ => some is
  | .serverError => none

/-- The `pagination` object of a 200 list response. -/
def ListResp.pageInfo : ListResp → Option Pagination
  | .ok _ pg _ => some pg
  | .serverError => none

/-- The rows matching the WHERE clause of the list query, in table
order. -/
def filteredRows (db : DB) (p : ListParams) : List Item :=
  db.items.filter (rowMatches p.category p.search)

/-- The rows of the list query after the (conditional) ORDER BY. -/
def sortedRows (db : DB) (p : ListParams) : List Item :=
  sortStep (p.sort_by.getD "id") (p.sort_order.getD "asc") (filteredRows db p)

/-- `get_items`: pagination parameters (`per_page` capped at 100, no
lower bound), filtering, conditional sorting, the COUNT query, the page
slice, and the pagination arithmetic.  `ZeroDivisionError` from
`total_pages = (total_items + per_page - 1) // per_page` is caught by the
handler's `except` branch and becomes the generic 500. -/
def get_items (db : DB) (p : ListParams) : ListResp :=
  let page := p.page.getD 1
  let per_page := min (p.per_page.getD 10) 100
  let total_items : ℤ := ((filteredRows db p).length : ℤ)
  let offset := (page - 1) * per_page
  let pageItems := sqlSlice (sortedRows db p) per_page offset
  match pyFloorDiv (total_items + per_page - 1) per_page with
  | none => .serverError
  | some total_pages =>
    .ok pageItems
      ⟨page, per_page, total_items, total_pages,
        decide (page < total_pages), decide (1 < page)⟩
      ⟨p.category, p.search, p.sort_by.getD "id", p.sort_order.getD "asc"⟩

/-! ## Column affinity conversions

What SQLite stores when a handler binds a JSON scalar to a column.  Only
string values reach the TEXT columns, and only numbers reach the
REAL/INTEGER columns, in every behaviour the claims exercise; the other
cases record SQLite's lossless affinity conversions, and values SQLite
would keep under a different storage class than the column's declared
type (non-numeric text in `price`, a fractional real in `quantity`) fall
outside this typed row model and are mapped to NULL. -/

/-- Storage into a TEXT column. -/
def toTextVal : JValue → Option String
  | .null => none
  | .str s => some s
  | .bool b => some (if b then "1" else "0")
  | .num q => some (toString q)

/-- Storage into the REAL column `price`. -/
def toRealVal : JValue → Option ℚ
  | .null => none
  | .bool b => some (if b then 1 else 0)
  | .num q => some q
  | .str s =>
    match pyFloatOfString s with
    | some (.finite q) => some q
    | _ => none

/-- Storage into the INTEGER column `quantity`. -/
def toIntVal : JValue → Option ℤ
  | .null => none
  | .bool b => some (if b then 1 else 0)
  | .num q => if q.den = 1 then some q.num else none
  | .str s => pyIntOfString s

/-! ## GET /items/id (src/app.py lines 233-248) -/

/-- A `GET /items/<id>` response. -/
inductive GetResp where
  | ok (item : Item)
  | notFound
deriving DecidableEq

/-- `get_item`: fetch one row by id, 404 when absent. -/
def get_item (db : DB) (item_id : Nat) : GetResp :=
  match db.items.find? (fun i => i.id == item_id) with
  | none => .notFound
  | some i => .ok i

/-! ## POST /items (src/app.py lines 250-288) -/

/-- A `POST /items` response. -/
inductive CreateResp where
  | noJson
  | invalid (details : List String)
  | created (item : Item)
  | error500
deriving DecidableEq

/-- `create_item`.  `if not data` catches both an absent/null body and an
empty JSON object, before any validation.  On success the row is inserted
with `description`/`category`/`price` defaulting to NULL and `quantity`
to 0, both timestamps take the statement's `CURRENT_TIMESTAMP`, and the
row is re-read by `lastrowid`.  The third component lists the queries
issued against the `items` table. -/
def create_item (db : DB) (body : Option Assoc) :
    CreateResp × DB × List StoreOp :=
  match body with
  | none => (.noJson, db, [])
  | some data =>
    if data.isEmpty then (.noJson, db, [])
    else
      let errors := validate_item_data data (some ["name"])
      if errors ≠ [] then (.invalid errors, db, [])
      else
        let item : Item :=
          ⟨db.nextId,
           (toTextVal ((jget data "name").getD .null)).getD "",
           toTextVal ((jget data "description").getD .null),
           toTextVal ((jget data "category").getD .null),
           toRealVal ((jget data "price").getD .null),
           toIntVal ((jget data "quantity").getD (.num 0)),
           db.now, db.now⟩
        let db' : DB := ⟨db.items ++ [item], db.nextId + 1, db.now⟩
        match db'.items.find? (fun i => i.id == item.id) with
        | some it => (.created it, db', [.write, .read])
        | none => (.error500, db', [.write, .read])

/-! ## PUT /items/id (src/app.py lines 290-339) -/

/-- A `PUT /items/<id>` response. -/
inductive UpdateResp where
  | noJson
  | notFound
  | invalid (details : List String)
  | noFields
  | updated (item : Item)
  | error500
deriving DecidableEq

/-- The recognised mutable columns, in the order the update loop visits
them (src/app.py line 316). -/
def updatableFields : List String := ["name", "description", "category", "price", "quantity"]

/-- One `field = ?` assignment of the dynamically built UPDATE.  A NULL
`name` cannot reach the write: validation has already required `name` to
be present and truthy whenever the query is executed. -/
def applyField (i : Item) (field : String) (v : JValue) : Item :=
  match field with
  | "name" => ⟨i.id, (toTextVal v).getD i.name, i.description, i.category,
               i.price, i.quantity, i.created_at, i.updated_at⟩
  | "description" => ⟨i.id, i.name, toTextVal v, i.category, i.price,
                      i.quantity, i.created_at, i.updated_at⟩
  | "category" => ⟨i.id, i.name, i.description, toTextVal v, i.price,
                   i.quantity, i.created_at, i.updated_at⟩
  | "price" => ⟨i.id, i.name, i.description, i.category, toRealVal v,
                i.quantity, i.created_at, i.updated_at⟩
  | "quantity" => ⟨i.id, i.name, i.description, i.category, i.price,
                   toIntVal v, i.created_at, i.updated_at⟩
  | _ => i

/-- The effect of the UPDATE statement on one matching row, including the
`update_timestamp` trigger refreshing `updated_at`. -/
def applyUpdate (data : Assoc) (now : Nat) (i : Item) : Item :=
  let fields := updatableFields.filter (fun f => jmem data f)
  let i' := fields.foldl (fun acc f => applyField acc f ((jget data f).getD .null)) i
  ⟨i'.id, i'.name, i'.description, i'.category, i'.price, i'.quantity,
   i'.created_at, now⟩

/-- `update_item`.  Empty-body check, then the existence-check SELECT,
then validation — note `validate_item_data(data)` uses the default
`required_fields`, i.e. `['name']` — then the dynamically built UPDATE
over the present recognised fields, then the re-read of the row. -/
def update_item (db : DB) (item_id : Nat) (body : Option Assoc) :
    UpdateResp × DB × List StoreOp :=
  match body with
  | none => (.noJson, db, [])
  | some data =>
    if data.isEmpty then (.noJson, db, [])
    else
      match db.items.find? (fun i => i.id == item_id) with
      | none => (.notFound, db, [.read])
      | some _ =>
        let errors := validate_item_data data none
        if errors ≠ [] then (.invalid errors, db, [.read])
        else
          if updatableFields.filter (fun f => jmem data f) = [] then
            (.noFields, db, [.read])
          else
            let items' := db.items.map (fun i =>
              if i.id == item_id then applyUpdate data db.now i else i)
            let db' : DB := ⟨items', db.nextId, db.now⟩
            match items'.find? (fun i => i.id == item_id) with
            | some it => (.updated it, db', [.read, .write, .read])
            | none => (.error500, db', [.read, .write, .read])

/-! ## DELETE /items/id (src/app.py lines 341-363) -/

/-- A `DELETE /items/<id>` response. -/
inductive DeleteResp where
  | deleted
  | notFound
deriving DecidableEq

/-- `delete_item`: existence-check SELECT, 404 when absent, otherwise the
DELETE removes every row with the id. -/
def delete_item (db : DB) (item_id : Nat) : DeleteResp × DB × List StoreOp :=
  match db.items.find? (fun i => i.id == item_id) with
  | none => (.notFound, db, [.read])
  | some _ =>
    (.deleted,
     ⟨db.items.filter (fun i => !(i.id == item_id)), db.nextId, db.now⟩,
     [.read, .write])

/-! ## HTTP status codes and response projections -/

/-- HTTP status of a create response: 400 for a missing body and for
validation failure, 201 on success. -/
def CreateResp.statusCode : CreateResp → Nat
  | .noJson => 400
  | .invalid _ => 400
  | .created _ => 201
  | .error500 => 500

/-- The `details` array of a create response body: present only on the
`Validation failed` 400. -/
def CreateResp.detailsOut : CreateResp → Option (List String)
  | .invalid ds => some ds
  | _ => none

/-- HTTP status of an update response. -/
def UpdateResp.statusCode : UpdateResp → Nat
  | .noJson => 400
  | .notFound => 404
  | .invalid _ => 400
  | .noFields => 400
  | .updated _ => 200
  | .error500 => 500

/-- HTTP status of a delete response. -/
def DeleteResp.statusCode : DeleteResp → Nat
  | .deleted => 200
  | .notFound => 404

/-- Case-insensitive substring containment — the reading of "name or
description contains the search string case-insensitively" in the
specification. -/
def containsCI (text sub : String) : Bool :=
  (text.toList.map Char.toLower).tails.any
    (fun t => (sub.toList.map Char.toLower).isPrefixOf t)

/-- A store of 25 items (ids 1..25), for the concrete pagination
scenario. -/
def sampleItem (j : Nat) : Item := ⟨j + 1, "sample", none, none, none, none, 0, 0⟩

/-- The 25-item store. -/
def sampleDb25 : DB := ⟨(List.range 25).map sampleItem, 26, 0⟩

/-- The create body `{name: "X", price: 9.99, quantity: 3}` of the
round-trip scenario. -/
def roundtripBody : Assoc :=
  [("name", JValue.str "X"), ("price", JValue.num (mkRat 999 100)),
   ("quantity", JValue.num 3)]

/-! ## Infrastructure lemmas -/

theorem orderedInsert_perm (le : Item → Item → Bool) (a : Item) (l : List Item) :
    List.Perm (orderedInsert le a l) (a :: l) := by
  induction l with
  | nil => simp [orderedInsert]
  | cons b l ih =>
    simp only [orderedInsert]
    split
    · exact List.Perm.refl _
    · exact (ih.cons b).trans (List.Perm.swap a b l)

theorem insertionSort_perm (le : Item → Item → Bool) (l : List Item) :
    List.Perm (insertionSort le l) l := by
  induction l with
  | nil => simp [insertionSort]
  | cons a l ih => exact (orderedInsert_perm le a _).trans (ih.cons a)

theorem mem_orderedInsert {le : Item → Item → Bool} {a x : Item} {l : List Item} :
    x ∈ orderedInsert le a l ↔ x = a ∨ x ∈ l := by
  rw [(orderedInsert_perm le a l).mem_iff, List.mem_cons]

theorem orderedInsert_pairwise (le : Item → Item → Bool)
    (htot : ∀ a b, le a b = true ∨ le b a = true)
    (htr : ∀ a b c, le a b = true → le b c = true → le a c = true)
    (a : Item) {l : List Item} (hl : l.Pairwise (fun x y => le x y = true)) :
    (orderedInsert le a l).Pairwise (fun x y => le x y = true) := by
  induction l with
  | nil => simp [orderedInsert]
  | cons b l ih =>
    rw [List.pairwise_cons] at hl
    obtain ⟨hb, hl'⟩ := hl
    simp only [orderedInsert]
    by_cases h : le a b = true
    · rw [if_pos h]
      refine List.Pairwise.cons ?_ (List.Pairwise.cons hb hl')
      intro x hx
      rcases List.mem_cons.mp hx with rfl | hx
      · exact h
      · exact htr a b x h (hb x hx)
    · rw [if_neg h]
      refine List.Pairwise.cons ?_ (ih hl')
      intro x hx
      rcases mem_orderedInsert.mp hx with rfl | hx
      · exact (htot b x).resolve_right h
      · exact hb x hx

theorem insertionSort_pairwise (le : Item → Item → Bool)
    (htot : ∀ a b, le a b = true ∨ le b a = true)
    (htr : ∀ a b c, le a b = true → le b c = true → le a c = true)
    (l : List Item) :
    (insertionSort le l).Pairwise (fun x y => le x y = true) := by
  induction l with
  | nil => simp [insertionSort]
  | cons a l ih => exact orderedInsert_pairwise le htot htr a ih

theorem sqlSlice_sublist (rows : List Item) (limit offset : ℤ) :
    List.Sublist (sqlSlice rows limit offset) rows := by
  unfold sqlSlice
  split
  · exact List.drop_sublist _ _
  · exact (List.take_sublist _ _).trans (List.drop_sublist _ _)

theorem optRatLe_total (x y : Option ℚ) : optRatLe x y = true ∨ optRatLe y x = true := by
  cases x <;> cases y <;> simp [optRatLe, le_total]

theorem optRatLe_trans {x y z : Option ℚ} (h1 : optRatLe x y = true)
    (h2 : optRatLe y z = true) : optRatLe x z = true := by
  cases x <;> cases y <;> cases z <;> simp_all [optRatLe]
  exact le_trans h1 h2

theorem fdiv_ceil_eq (t : ℕ) (pp : ℤ) (hpp : 1 ≤ pp) :
    Int.fdiv ((t : ℤ) + pp - 1) pp = ⌈(t : ℚ) / (pp : ℚ)⌉ := by
  have hpp0 : (0 : ℤ) < pp := hpp
  have hppQ : (0 : ℚ) < (pp : ℚ) := by exact_mod_cast hpp0
  rw [Int.fdiv_eq_ediv _ (le_of_lt hpp0)]
  symm
  rw [Int.ceil_eq_iff]
  set n : ℤ := ((t : ℤ) + pp - 1) / pp with hn
  have h1 : pp * n + ((t : ℤ) + pp - 1) % pp = (t : ℤ) + pp - 1 :=
    Int.ediv_add_emod _ _
  have hr0 : 0 ≤ ((t : ℤ) + pp - 1) % pp := Int.emod_nonneg _ (ne_of_gt hpp0)
  have hr1 : ((t : ℤ) + pp - 1) % pp < pp := Int.emod_lt_of_pos _ hpp0
  have hmul : n * pp = (t : ℤ) + pp - 1 - ((t : ℤ) + pp - 1) % pp := by
    rw [mul_comm]; linarith
  have hexp : (n - 1) * pp = n * pp - pp := by ring
  have hzlt : (n - 1) * pp < (t : ℤ) := by
    rw [hexp, hmul]; linarith
  have hzle : (t : ℤ) ≤ n * pp := by
    rw [hmul]; linarith
  constructor
  · rw [show ((n : ℚ) - 1) = (((n - 1 : ℤ) : ℚ)) by push_cast; ring,
      lt_div_iff₀ hppQ]
    exact_mod_cast hzlt
  · rw [div_le_iff₀ hppQ]
    exact_mod_cast hzle

theorem get_items_of_ne_zero (db : DB) (p : ListParams)
    (h : min (p.per_page.getD 10) 100 ≠ 0) :
    get_items db p = .ok
      (sqlSlice (sortedRows db p) (min (p.per_page.getD 10) 100)
        ((p.page.getD 1 - 1) * min (p.per_page.getD 10) 100))
      ⟨p.page.getD 1, min (p.per_page.getD 10) 100,
        ((filteredRows db p).length : ℤ),
        Int.fdiv (((filteredRows db p).length : ℤ) + min (p.per_page.getD 10) 100 - 1)
          (min (p.per_page.getD 10) 100),
        decide (p.page.getD 1 <
          Int.fdiv (((filteredRows db p).length : ℤ) + min (p.per_page.getD 10) 100 - 1)
            (min (p.per_page.getD 10) 100)),
        decide (1 < p.page.getD 1)⟩
      ⟨p.category, p.search, p.sort_by.getD "id", p.sort_order.getD "asc"⟩ := by
  unfold get_items pyFloorDiv
  simp [h]

theorem get_items_of_zero (db : DB) (p : ListParams)
    (h : min (p.per_page.getD 10) 100 = 0) :
    get_items db p = .serverError := by
  unfold get_items pyFloorDiv
  simp [h]

theorem sortedRows_perm (db : DB) (p : ListParams) :
    List.Perm (sortedRows db p) (filteredRows db p) := by
  unfold sortedRows sortStep
  split
  · dsimp only
    split
    · exact insertionSort_perm _ _
    · exact List.Perm.refl _
  · exact List.Perm.refl _

theorem itemsOut_eq_slice {db : DB} {p : ListParams} {items : List Item}
    (h : (get_items db p).itemsOut = some items) :
    items = sqlSlice (sortedRows db p) (min (p.per_page.getD 10) 100)
      ((p.page.getD 1 - 1) * min (p.per_page.getD 10) 100) := by
  by_cases h0 : min (p.per_page.getD 10) 100 = 0
  · rw [get_items_of_zero db p h0] at h
    exact absurd h (by simp [ListResp.itemsOut])
  · rw [get_items_of_ne_zero db p h0] at h
    simpa [ListResp.itemsOut] using h.symm

theorem mem_items_matches {db : DB} {p : ListParams} {items : List Item}
    (h : (get_items db p).itemsOut = some items) {i : Item} (hi : i ∈ items) :
    i ∈ db.items ∧ rowMatches p.category p.search i = true := by
  rw [itemsOut_eq_slice h] at hi
  have h2 : i ∈ sortedRows db p := (sqlSlice_sublist _ _ _).mem hi
  have h3 : i ∈ filteredRows db p := (sortedRows_perm db p).mem_iff.mp h2
  exact List.mem_filter.mp h3

/-! ## Claim theorems -/

/-- C1: the claim says a PUT body of only `{price: 5.00}` on an existing id
succeeds with 200.  The code instead rejects it: `update_item` calls
`validate_item_data(data)` with the default `required_fields=['name']`, so
the request is answered 400 `Validation failed` with details
`['name' is required]`, and the stored state is unchanged.  (This also
makes the handler's own `No valid fields to update` branch unreachable.) -/
theorem update_price_only_is_rejected :
    update_item ⟨[⟨1, "Laptop", none, some "Electronics", some (mkRat 99999 100),
        some 5, 0, 0⟩], 2, 7⟩ 1 (some [("price", JValue.num 5)]) =
      (.invalid ["'name' is required"],
       ⟨[⟨1, "Laptop", none, some "Electronics", some (mkRat 99999 100),
          some 5, 0, 0⟩], 2, 7⟩,
       [.read])
    ∧ (UpdateResp.invalid ["'name' is required"]).statusCode = 400 := by
  exact ⟨by decide, rfl⟩

/-- C10: a list request with `per_page=0` hits the `ZeroDivisionError` in
`total_pages = (total_items + per_page - 1) // per_page` (no lower clamp is
applied to `per_page`), which the handler's generic except branch converts
to the 500 response. -/
theorem per_page_zero_gives_500 (db : DB) (p : ListParams)
    (h : p.per_page = some 0) : get_items db p = .serverError := by
  apply get_items_of_zero
  rw [h]
  decide

/-- Witness for C10 at a concrete store and request. -/
theorem per_page_zero_gives_500_witness :
    (⟨none, some 0, none, none, none, none⟩ : ListParams).per_page = some 0 ∧
    get_items ⟨[], 1, 0⟩ ⟨none, some 0, none, none, none, none⟩ = .serverError :=
  ⟨rfl, per_page_zero_gives_500 ⟨[], 1, 0⟩ ⟨none, some 0, none, none, none, none⟩ rfl⟩

/-- C2 counterexample: the claim says requested `per_page` values below 1
are raised to 1.  A request with `per_page=-5` instead reaches the page
slice and the metadata unchanged: the response's `pagination.per_page` is
-5, outside [1, 100]. -/
theorem per_page_below_one_not_raised :
    (get_items ⟨[], 1, 0⟩ ⟨none, some (-5), none, none, none, none⟩).pageInfo =
      some ⟨1, -5, 0, 1, false, false⟩
    ∧ ¬((1 : ℤ) ≤ -5 ∧ (-5 : ℤ) ≤ 100) := by
  exact ⟨by decide, by decide⟩

/-- C2 amended: the effective `per_page` is `min(requested, 100)`: values
above 100 are capped to 100 and an absent parameter defaults to 10, but no
lower clamp exists — a requested value below 1 is used as-is (0 produces
the 500 of C10, negative values reach the metadata). -/
theorem per_page_effective_is_min_cap :
    (∀ (db : DB) (p : ListParams) (pg : Pagination),
        (get_items db p).pageInfo = some pg →
        pg.per_page = min (p.per_page.getD 10) 100)
    ∧ (∀ (db : DB) (p : ListParams) (n : ℤ), p.per_page = some n → 100 < n →
        ∃ pg, (get_items db p).pageInfo = some pg ∧ pg.per_page = 100)
    ∧ (∀ (db : DB) (p : ListParams), p.per_page = none →
        ∃ pg, (get_items db p).pageInfo = some pg ∧ pg.per_page = 10) := by
  refine ⟨?_, ?_, ?_⟩
  · intro db p pg h
    by_cases h0 : min (p.per_page.getD 10) 100 = 0
    · rw [get_items_of_zero db p h0] at h
      exact absurd h (by simp [ListResp.pageInfo])
    · rw [get_items_of_ne_zero db p h0] at h
      simp only [ListResp.pageInfo, Option.some.injEq] at h
      rw [← h]
  · intro db p n hn h100
    have h0 : min (p.per_page.getD 10) 100 ≠ 0 := by
      rw [hn]; simp only [Option.getD_some]; omega
    refine ⟨_, by rw [get_items_of_ne_zero db p h0]; rfl, ?_⟩
    dsimp only
    rw [hn]
    simp only [Option.getD_some]
    omega
  · intro db p hn
    have h0 : min (p.per_page.getD 10) 100 ≠ 0 := by
      rw [hn]; decide
    refine ⟨_, by rw [get_items_of_ne_zero db p h0]; rfl, ?_⟩
    dsimp only
    rw [hn]
    decide

/-- Witness for C2's amended theorem: a request with `per_page=250` is
capped to an effective 100. -/
theorem per_page_effective_is_min_cap_witness :
    (⟨none, some 250, none, none, none, none⟩ : ListParams).per_page = some 250
    ∧ (100 : ℤ) < 250
    ∧ ∃ pg, (get_items ⟨[], 1, 0⟩
        ⟨none, some 250, none, none, none, none⟩).pageInfo = some pg ∧
        pg.per_page = 100 :=
  ⟨rfl, by norm_num,
   per_page_effective_is_min_cap.2.1 ⟨[], 1, 0⟩
     ⟨none, some 250, none, none, none, none⟩ 250 rfl (by norm_num)⟩

/-- C9: DELETE returns 200 (confirmation) exactly when the id exists,
removing the row; otherwise 404 with the store unchanged, and deleting a
non-existent id twice gives 404 both times with the state unchanged each
time. -/
theorem delete_item_spec :
    (∀ (db : DB) (iid : Nat), (db.items.find? (fun i => i.id == iid)).isSome = true →
        delete_item db iid =
          (.deleted, ⟨db.items.filter (fun i => !(i.id == iid)), db.nextId, db.now⟩,
           [.read, .write]))
    ∧ (∀ (db : DB) (iid : Nat), (db.items.find? (fun i => i.id == iid)).isSome = false →
        delete_item db iid = (.notFound, db, [.read]))
    ∧ (∀ (db : DB) (iid : Nat),
        ((delete_item db iid).1.statusCode = 200 ↔
          (db.items.find? (fun i => i.id == iid)).isSome = true))
    ∧ (∀ (db : DB) (iid : Nat), (db.items.find? (fun i => i.id == iid)).isSome = false →
        (delete_item db iid).1.statusCode = 404 ∧ (delete_item db iid).2.1 = db ∧
        (delete_item (delete_item db iid).2.1 iid).1.statusCode = 404 ∧
        (delete_item (delete_item db iid).2.1 iid).2.1 = db) := by
  have hdel : ∀ (db : DB) (iid : Nat),
      (db.items.find? (fun i => i.id == iid)).isSome = false →
      delete_item db iid = (.notFound, db, [.read]) := by
    intro db iid h
    cases hfind : db.items.find? (fun i => i.id == iid) with
    | none => unfold delete_item; rw [hfind]
    | some i => rw [hfind] at h; simp at h
  have hdel2 : ∀ (db : DB) (iid : Nat),
      (db.items.find? (fun i => i.id == iid)).isSome = true →
      delete_item db iid =
        (.deleted, ⟨db.items.filter (fun i => !(i.id == iid)), db.nextId, db.now⟩,
         [.read, .write]) := by
    intro db iid h
    rw [Option.isSome_iff_exists] at h
    obtain ⟨i, hi⟩ := h
    unfold delete_item
    rw [hi]
  refine ⟨hdel2, hdel, ?_, ?_⟩
  · intro db iid
    constructor
    · intro h
      by_contra hnone
      rw [Bool.not_eq_true] at hnone
      rw [hdel db iid hnone] at h
      simp [DeleteResp.statusCode] at h
    · intro h
      rw [hdel2 db iid h]
      rfl
  · intro db iid h
    refine ⟨?_, ?_, ?_, ?_⟩ <;> simp [hdel db iid h, DeleteResp.statusCode]

/-- Witness for C9 at a concrete store: id 1 exists and is removed; id 9
does not exist and yields 404 twice. -/
theorem delete_item_spec_witness :
    ((((⟨[⟨1, "Laptop", none, none, none, none, 0, 0⟩], 2, 7⟩ : DB)).items.find?
        (fun i => i.id == 1)).isSome = true
      ∧ delete_item ⟨[⟨1, "Laptop", none, none, none, none, 0, 0⟩], 2, 7⟩ 1 =
        (.deleted, ⟨[], 2, 7⟩, [.read, .write]))
    ∧ ((((⟨[⟨1, "Laptop", none, none, none, none, 0, 0⟩], 2, 7⟩ : DB)).items.find?
        (fun i => i.id == 9)).isSome = false
      ∧ delete_item ⟨[⟨1, "Laptop", none, none, none, none, 0, 0⟩], 2, 7⟩ 9 =
        (.notFound, ⟨[⟨1, "Laptop", none, none, none, none, 0, 0⟩], 2, 7⟩, [.read])) := by
  constructor
  · refine ⟨by decide, ?_⟩
    have := delete_item_spec.1 ⟨[⟨1, "Laptop", none, none, none, none, 0, 0⟩], 2, 7⟩ 1
      (by decide)
    rw [this]
    decide
  · exact ⟨by decide,
      delete_item_spec.2.1 ⟨[⟨1, "Laptop", none, none, none, none, 0, 0⟩], 2, 7⟩ 9
        (by decide)⟩

/-- C3 counterexample: the claim says a validation-failing update issues no
query at all, but `update_item` runs its existence-check SELECT before
validating: the trace of a 400 `Validation failed` update on an existing id
contains a read. -/
theorem update_validation_failure_reads_store :
    update_item ⟨[⟨1, "Laptop", none, none, none, none, 0, 0⟩], 2, 7⟩ 1
        (some [("price", JValue.str "abc")]) =
      (.invalid ["'name' is required", "'price' must be a valid number"],
       ⟨[⟨1, "Laptop", none, none, none, none, 0, 0⟩], 2, 7⟩, [.read])
    ∧ ([StoreOp.read] ≠ ([] : List StoreOp)) := by
  exact ⟨by decide, by decide⟩

/-- C3 amended: a validation-failing create returns 400 before any query
(no read, no write, state unchanged); a validation-failing update on an
existing id returns 400 after only the existence-check read — it issues no
write and leaves the state unchanged. -/
theorem validation_failure_no_store_write :
    (∀ (db : DB) (data : Assoc), data ≠ [] →
        validate_item_data data (some ["name"]) ≠ [] →
        create_item db (some data) =
          (.invalid (validate_item_data data (some ["name"])), db, ([] : List StoreOp)))
    ∧ (∀ (db : DB) (iid : Nat) (data : Assoc), data ≠ [] →
        (db.items.find? (fun i => i.id == iid)).isSome = true →
        validate_item_data data none ≠ [] →
        update_item db iid (some data) =
          (.invalid (validate_item_data data none), db, [.read])) := by
  constructor
  · intro db data hne hval
    unfold create_item
    dsimp only
    rw [if_neg (by simp [hne]), if_pos hval]
  · intro db iid data hne hfind hval
    rw [Option.isSome_iff_exists] at hfind
    obtain ⟨i, hi⟩ := hfind
    unfold update_item
    dsimp only
    rw [if_neg (by simp [hne]), hi]
    dsimp only
    rw [if_pos hval]

/-- Witness for C3's amended theorem at concrete bodies. -/
theorem validation_failure_no_store_write_witness :
    (([("price", JValue.str "abc")] : Assoc) ≠ []
      ∧ validate_item_data [("price", JValue.str "abc")] (some ["name"]) ≠ []
      ∧ create_item ⟨[], 1, 0⟩ (some [("price", JValue.str "abc")]) =
        (.invalid (validate_item_data [("price", JValue.str "abc")] (some ["name"])),
         ⟨[], 1, 0⟩, ([] : List StoreOp)))
    ∧ ((((⟨[⟨1, "L", none, none, none, none, 0, 0⟩], 2, 7⟩ : DB)).items.find?
        (fun i => i.id == 1)).isSome = true
      ∧ validate_item_data [("price", JValue.str "abc")] none ≠ []
      ∧ update_item ⟨[⟨1, "L", none, none, none, none, 0, 0⟩], 2, 7⟩ 1
          (some [("price", JValue.str "abc")]) =
        (.invalid (validate_item_data [("price", JValue.str "abc")] none),
         ⟨[⟨1, "L", none, none, none, none, 0, 0⟩], 2, 7⟩, [.read])) := by
  constructor
  · exact ⟨by decide, by decide,
      validation_failure_no_store_write.1 ⟨[], 1, 0⟩ [("price", JValue.str "abc")]
        (by decide) (by decide)⟩
  · exact ⟨by decide, by decide,
      validation_failure_no_store_write.2 ⟨[⟨1, "L", none, none, none, none, 0, 0⟩], 2, 7⟩
        1 [("price", JValue.str "abc")] (by decide) (by decide) (by decide)⟩

/-- C4: for every list request with requested per_page ≥ 1, the metadata
satisfies total_pages = ceil(total_items / per_page), has_next ↔ page <
total_pages and has_prev ↔ page > 1; with 25 matching items and
per_page=10, pages 1 and 2 return 10 items each, page 3 returns 5,
total_pages = 3, and has_next is true exactly on pages 1 and 2. -/
theorem pagination_math_spec :
    (∀ (db : DB) (p : ListParams) (n : ℤ), p.per_page = some n → 1 ≤ n →
      ∃ pg, (get_items db p).pageInfo = some pg
        ∧ pg.total_pages = ⌈(pg.total_items : ℚ) / (pg.per_page : ℚ)⌉
        ∧ (pg.has_next = true ↔ pg.page < pg.total_pages)
        ∧ (pg.has_prev = true ↔ 1 < pg.page))
    ∧ ((get_items sampleDb25 ⟨some 1, some 10, none, none, none, none⟩).itemsOut.getD
        []).length = 10
    ∧ ((get_items sampleDb25 ⟨some 2, some 10, none, none, none, none⟩).itemsOut.getD
        []).length = 10
    ∧ ((get_items sampleDb25 ⟨some 3, some 10, none, none, none, none⟩).itemsOut.getD
        []).length = 5
    ∧ (get_items sampleDb25 ⟨some 1, some 10, none, none, none, none⟩).pageInfo =
        some ⟨1, 10, 25, 3, true, false⟩
    ∧ (get_items sampleDb25 ⟨some 2, some 10, none, none, none, none⟩).pageInfo =
        some ⟨2, 10, 25, 3, true, true⟩
    ∧ (get_items sampleDb25 ⟨some 3, some 10, none, none, none, none⟩).pageInfo =
        some ⟨3, 10, 25, 3, false, true⟩ := by
  refine ⟨?_, by decide, by decide, by decide, by decide, by decide, by decide⟩
  intro db p n hn h1
  have hmin : (1 : ℤ) ≤ min (p.per_page.getD 10) 100 := by
    rw [hn]; simp only [Option.getD_some]; omega
  have h0 : min (p.per_page.getD 10) 100 ≠ 0 := by omega
  refine ⟨_, by rw [get_items_of_ne_zero db p h0]; rfl, ?_, ?_, ?_⟩
  · dsimp only
    exact fdiv_ceil_eq _ _ hmin
  · dsimp only
    exact decide_eq_true_iff
  · dsimp only
    exact decide_eq_true_iff

/-- Witness for C4 at the 25-item store, page 1, per_page 10. -/
theorem pagination_math_spec_witness :
    (⟨some 1, some 10, none, none, none, none⟩ : ListParams).per_page = some 10
    ∧ (1 : ℤ) ≤ 10
    ∧ ∃ pg, (get_items sampleDb25 ⟨some 1, some 10, none, none, none, none⟩).pageInfo =
          some pg
        ∧ pg.total_pages = ⌈(pg.total_items : ℚ) / (pg.per_page : ℚ)⌉
        ∧ (pg.has_next = true ↔ pg.page < pg.total_pages)
        ∧ (pg.has_prev = true ↔ 1 < pg.page) :=
  ⟨rfl, by norm_num,
   pagination_math_spec.1 sampleDb25 ⟨some 1, some 10, none, none, none, none⟩ 10 rfl
     (by norm_num)⟩

/-- C5: creating an item with `{name: "X", price: 9.99, quantity: 3}` and
fetching the returned id yields an item with exactly those fields and with
created_at equal to updated_at. -/
theorem create_get_roundtrip (db : DB)
    (h : ∀ i ∈ db.items, i.id ≠ db.nextId) :
    ∃ itm db', create_item db (some roundtripBody) = (.created itm, db', [.write, .read])
      ∧ itm.name = "X" ∧ itm.price = some (mkRat 999 100) ∧ itm.quantity = some 3
      ∧ itm.description = none ∧ itm.category = none
      ∧ itm.created_at = itm.updated_at
      ∧ get_item db' itm.id = .ok itm := by
  have hfindnil : db.items.find? (fun i => i.id == db.nextId) = none := by
    rw [List.find?_eq_none]
    intro x hx
    simp only [beq_iff_eq]
    exact h x hx
  have hfind : (db.items ++
        [(⟨db.nextId, "X", none, none, some (mkRat 999 100), some 3, db.now, db.now⟩ : Item)]).find?
        (fun i => i.id == db.nextId) =
      some (⟨db.nextId, "X", none, none, some (mkRat 999 100), some 3, db.now, db.now⟩ : Item) := by
    rw [List.find?_append, hfindnil, Option.none_or]
    exact List.find?_cons_of_pos _ (by simp)
  refine ⟨⟨db.nextId, "X", none, none, some (mkRat 999 100), some 3, db.now, db.now⟩,
    ⟨db.items ++ [⟨db.nextId, "X", none, none, some (mkRat 999 100), some 3, db.now,
      db.now⟩], db.nextId + 1, db.now⟩,
    ?_, rfl, rfl, rfl, rfl, rfl, rfl, ?_⟩
  · unfold create_item
    dsimp only
    rw [if_neg (by decide), if_neg (by decide)]
    have e1 : (toTextVal ((jget roundtripBody "name").getD JValue.null)).getD "" = "X" := rfl
    have e2 : toTextVal ((jget roundtripBody "description").getD JValue.null) = none := rfl
    have e3 : toTextVal ((jget roundtripBody "category").getD JValue.null) = none := rfl
    have e4 : toRealVal ((jget roundtripBody "price").getD JValue.null) =
        some (mkRat 999 100) := rfl
    have e5 : toIntVal ((jget roundtripBody "quantity").getD (JValue.num 0)) = some 3 := rfl
    rw [e1, e2, e3, e4, e5, hfind]
  · unfold get_item
    dsimp only
    rw [hfind]

/-- Witness for C5 on the empty store. -/
theorem create_get_roundtrip_witness :
    (∀ i ∈ (⟨[], 1, 3⟩ : DB).items, i.id ≠ (⟨[], 1, 3⟩ : DB).nextId)
    ∧ ∃ itm db', create_item ⟨[], 1, 3⟩ (some roundtripBody) =
        (.created itm, db', [.write, .read])
      ∧ itm.name = "X" ∧ itm.price = some (mkRat 999 100) ∧ itm.quantity = some 3
      ∧ itm.description = none ∧ itm.category = none
      ∧ itm.created_at = itm.updated_at
      ∧ get_item db' itm.id = .ok itm :=
  ⟨by simp, create_get_roundtrip ⟨[], 1, 3⟩ (by simp)⟩

/-- C6 counterexample: the claim says POST {} yields 400 with a details
entry mentioning name.  The code's `if not data` check catches the empty
object first: the response is 400 `No JSON data provided`, with no details
array at all, and validation is never run. -/
theorem empty_body_gives_no_details :
    create_item ⟨[], 1, 0⟩ (some []) = (.noJson, ⟨[], 1, 0⟩, [])
    ∧ (create_item ⟨[], 1, 0⟩ (some [])).1.statusCode = 400
    ∧ (create_item ⟨[], 1, 0⟩ (some [])).1.detailsOut = none := by
  exact ⟨by decide, by decide, by decide⟩

/-- C6 amended: validation checks that price converts via Python float()
(which also accepts non-finite spellings such as "inf") and quantity via
int(), and a failing body's error list contains an entry for every failed
field simultaneously; a nonempty body without a truthy name gets the name
entry, `{name: "A", price: "abc"}` gets the price entry, and a body
failing several checks lists them all — but the empty body {} short-
circuits to 400 `No JSON data provided` with no details. -/
theorem validation_lists_every_failed_field :
    (∀ (data : Assoc) (rf : Option (List String)),
      (rf = none ∨ rf = some ["name"]) →
      (∀ v, jget data "name" = some v → jTruthy v = false) →
      "'name' is required" ∈ validate_item_data data rf)
    ∧ (∀ (data : Assoc) (rf : Option (List String)) (v : JValue),
      jget data "price" = some v → v ≠ JValue.null → pyFloat v = none →
      "'price' must be a valid number" ∈ validate_item_data data rf)
    ∧ (∀ (data : Assoc) (rf : Option (List String)) (v : JValue),
      jget data "quantity" = some v → v ≠ JValue.null → pyInt v = none →
      "'quantity' must be a valid integer" ∈ validate_item_data data rf)
    ∧ validate_item_data [("name", JValue.str "A"), ("price", JValue.str "inf")]
        (some ["name"]) = []
    ∧ pyFloat (JValue.str "inf") = some PyFloat.inf
    ∧ (create_item ⟨[], 1, 0⟩
        (some [("name", JValue.str "A"), ("price", JValue.str "abc")])).1 =
      .invalid ["'price' must be a valid number"]
    ∧ (create_item ⟨[], 1, 0⟩ (some [("price", JValue.str "abc")])).1 =
      .invalid ["'name' is required", "'price' must be a valid number"]
    ∧ validate_item_data
        [("description", JValue.str "d"), ("price", JValue.str "abc"),
         ("quantity", JValue.str "x")] none =
      ["'name' is required", "'price' must be a valid number",
       "'quantity' must be a valid integer"] := by
  refine ⟨?_, ?_, ?_, by decide, by decide, by decide, by decide, by decide⟩
  · intro data rf hrf h2
    have hreq : rf.getD ["name"] = ["name"] := by
      rcases hrf with rfl | rfl <;> rfl
    unfold validate_item_data
    rw [hreq]
    cases hg : jget data "name" with
    | none => simp [hg]
    | some v => simp [hg, h2 v hg]
  · intro data rf v hv hnull hpf
    unfold validate_item_data
    simp [hv, hnull, hpf, Option.isNone_iff_eq_none]
  · intro data rf v hv hnull hpi
    unfold validate_item_data
    simp [hv, hnull, hpi, Option.isNone_iff_eq_none]

/-- Witness for C6's amended theorem: concrete bodies exercising the name
and price checks. -/
theorem validation_lists_every_failed_field_witness :
    "'name' is required" ∈
      validate_item_data [("price", JValue.str "abc")] (some ["name"])
    ∧ "'price' must be a valid number" ∈
      validate_item_data [("name", JValue.str "A"), ("price", JValue.str "abc")] none
    ∧ "'quantity' must be a valid integer" ∈
      validate_item_data [("name", JValue.str "A"), ("quantity", JValue.str "x")] none := by
  refine ⟨?_, ?_, ?_⟩
  · exact validation_lists_every_failed_field.1 [("price", JValue.str "abc")]
      (some ["name"]) (Or.inr rfl)
      (fun v hv => by exact absurd hv (by simp [jget]))
  · exact validation_lists_every_failed_field.2.1
      [("name", JValue.str "A"), ("price", JValue.str "abc")] none (JValue.str "abc")
      (by rfl) (by decide) (by decide)
  · exact validation_lists_every_failed_field.2.2.1
      [("name", JValue.str "A"), ("quantity", JValue.str "x")] none (JValue.str "x")
      (by rfl) (by decide) (by decide)

/-- C7 counterexample: the claim says every returned item's name or
description contains the search string case-insensitively.  The search
string is interpolated into a LIKE pattern without escaping, so with
search "a%b" the item named "axb" is returned — % acts as a wildcard —
although neither its name nor its absent description contains "a%b". -/
theorem search_percent_counterexample :
    (get_items ⟨[⟨1, "axb", none, none, none, none, 0, 0⟩], 2, 0⟩
        ⟨none, none, none, some "a%b", none, none⟩).itemsOut =
      some [⟨1, "axb", none, none, none, none, 0, 0⟩]
    ∧ containsCI "axb" "a%b" = false
    ∧ (⟨1, "axb", none, none, none, none, 0, 0⟩ : Item).description = none := by
  exact ⟨by decide, by decide, rfl⟩

/-- C7 amended: with a category parameter every returned item's stored
category exactly equals the value; with a search parameter every returned
item's name or description matches the SQL LIKE pattern %search%
ASCII-case-insensitively (plain substring containment whenever the search
string has no % or _ wildcard); and the returned list is exactly the
requested page slice of the (optionally sorted) rows passing the filters,
which are a permutation of the stored items that match. -/
theorem filtering_spec :
    (∀ (db : DB) (p : ListParams) (items : List Item) (c : String),
      (get_items db p).itemsOut = some items → p.category = some c → c ≠ "" →
      ∀ i ∈ items, i.category = some c)
    ∧ (∀ (db : DB) (p : ListParams) (items : List Item) (s : String),
      (get_items db p).itemsOut = some items → p.search = some s → s ≠ "" →
      ∀ i ∈ items, strLike ("%" ++ s ++ "%") i.name = true
        ∨ ∃ d, i.description = some d ∧ strLike ("%" ++ s ++ "%") d = true)
    ∧ (∀ (db : DB) (p : ListParams) (items : List Item),
      (get_items db p).itemsOut = some items →
      items = sqlSlice (sortedRows db p) (min (p.per_page.getD 10) 100)
          ((p.page.getD 1 - 1) * min (p.per_page.getD 10) 100)
        ∧ List.Perm (sortedRows db p)
            (db.items.filter (rowMatches p.category p.search)))
    ∧ (get_items ⟨[⟨1, "Wireless Mouse", some "Ergonomic wireless mouse",
          some "Electronics", none, none, 0, 0⟩,
        ⟨2, "axb", none, none, none, none, 0, 0⟩], 3, 0⟩
        ⟨none, none, none, some "mouse", none, none⟩).itemsOut =
      some [⟨1, "Wireless Mouse", some "Ergonomic wireless mouse",
        some "Electronics", none, none, 0, 0⟩] := by
  refine ⟨?_, ?_, ?_, by decide⟩
  · intro db p items c h hcat hc i hi
    obtain ⟨_, hm⟩ := mem_items_matches h hi
    rw [hcat] at hm
    unfold rowMatches at hm
    rw [Bool.and_eq_true] at hm
    obtain ⟨h1, _⟩ := hm
    dsimp only at h1
    rw [if_pos hc] at h1
    exact beq_iff_eq.mp h1
  · intro db p items s h hsearch hs i hi
    obtain ⟨_, hm⟩ := mem_items_matches h hi
    rw [hsearch] at hm
    unfold rowMatches at hm
    rw [Bool.and_eq_true] at hm
    obtain ⟨_, h2⟩ := hm
    dsimp only at h2
    rw [if_pos hs, Bool.or_eq_true] at h2
    rcases h2 with h2 | h2
    · exact Or.inl h2
    · cases hd : i.description with
      | none => rw [hd] at h2; exact absurd h2 (by simp)
      | some d => rw [hd] at h2; exact Or.inr ⟨d, rfl, h2⟩
  · intro db p items h
    exact ⟨itemsOut_eq_slice h, sortedRows_perm db p⟩

/-- Witness for C7's amended theorem: a category filter on a concrete
store returns exactly the item whose stored category equals the value. -/
theorem filtering_spec_witness :
    (get_items ⟨[⟨1, "TV", none, some "Electronics", none, none, 0, 0⟩,
        ⟨2, "Mug", none, some "Kitchen", none, none, 0, 0⟩,
        ⟨3, "Thing", none, none, none, none, 0, 0⟩], 4, 0⟩
        ⟨none, none, some "Electronics", none, none, none⟩).itemsOut =
      some [⟨1, "TV", none, some "Electronics", none, none, 0, 0⟩]
    ∧ ("Electronics" : String) ≠ ""
    ∧ (⟨1, "TV", none, some "Electronics", none, none, 0, 0⟩ : Item).category =
        some "Electronics" := by
  refine ⟨by decide, by decide, ?_⟩
  exact filtering_spec.1
    ⟨[⟨1, "TV", none, some "Electronics", none, none, 0, 0⟩,
      ⟨2, "Mug", none, some "Kitchen", none, none, 0, 0⟩,
      ⟨3, "Thing", none, none, none, none, 0, 0⟩], 4, 0⟩
    ⟨none, none, some "Electronics", none, none, none⟩
    [⟨1, "TV", none, some "Electronics", none, none, 0, 0⟩]
    "Electronics" (by decide) rfl (by decide)
    ⟨1, "TV", none, some "Electronics", none, none, 0, 0⟩ (by decide)

/-- C8: an ORDER BY is applied only when sort_by is one of
{id, name, category, price, quantity, created_at} and the lowercased
sort_order is asc or desc; any invalid value silently skips sorting (the
row order is the unsorted filtered order, and the request still succeeds
whenever the effective per_page is nonzero); with sort_by=price and
sort_order=desc the returned items are in non-increasing price order
(NULL prices, the smallest, come last). -/
theorem sorting_spec :
    (∀ (db : DB) (p : ListParams),
      (parseSortField (p.sort_by.getD "id") = none
        ∨ (strLower (p.sort_order.getD "asc") ≠ "asc"
            ∧ strLower (p.sort_order.getD "asc") ≠ "desc")) →
      sortedRows db p = filteredRows db p
        ∧ (min (p.per_page.getD 10) 100 ≠ 0 → (get_items db p).status = 200))
    ∧ (∀ (db : DB) (p : ListParams) (items : List Item),
      p.sort_by = some "price" → p.sort_order = some "desc" →
      (get_items db p).itemsOut = some items →
      List.Chain' (fun a b => optRatLe b.price a.price = true) items)
    ∧ (get_items ⟨[⟨1, "a", none, none, some (mkRat 5 1), none, 0, 0⟩,
        ⟨2, "b", none, none, some (mkRat 7 1), none, 0, 0⟩,
        ⟨3, "c", none, none, none, none, 0, 0⟩], 4, 0⟩
        ⟨none, none, none, none, some "price", some "desc"⟩).itemsOut =
      some [⟨2, "b", none, none, some (mkRat 7 1), none, 0, 0⟩,
        ⟨1, "a", none, none, some (mkRat 5 1), none, 0, 0⟩,
        ⟨3, "c", none, none, none, none, 0, 0⟩] := by
  refine ⟨?_, ?_, by decide⟩
  · intro db p hinv
    constructor
    · unfold sortedRows sortStep
      rcases hinv with hnone | ⟨h1, h2⟩
      · rw [hnone]
      · cases hp : parseSortField (p.sort_by.getD "id") with
        | none => rfl
        | some f =>
          dsimp only
          rw [if_neg]
          rintro (h | h)
          · exact h1 h
          · exact h2 h
    · intro h0
      rw [get_items_of_ne_zero db p h0]
      rfl
  · intro db p items hsb hso h
    rw [itemsOut_eq_slice h]
    have hsorted : (sortedRows db p).Pairwise
        (fun a b => itemCmp .price true a b = true) := by
      unfold sortedRows sortStep
      rw [hsb, hso]
      have hps : parseSortField ((some "price").getD "id") = some .price := rfl
      rw [hps]
      dsimp only
      rw [if_pos (by right; decide)]
      rw [show decide (strLower ((some "desc").getD "asc") = "desc") = true from by decide]
      have hcmp : ∀ a b : Item, itemCmp .price true a b = optRatLe b.price a.price :=
        fun a b => rfl
      exact insertionSort_pairwise _
        (fun a b => by
          rw [hcmp, hcmp]
          exact optRatLe_total b.price a.price)
        (fun a b c h1 h2 => by
          rw [hcmp] at h1 h2 ⊢
          exact optRatLe_trans h2 h1)
        (filteredRows db p)
    have hsorted2 : (sortedRows db p).Pairwise
        (fun a b => optRatLe b.price a.price = true) := by
      refine hsorted.imp ?_
      intro a b hab
      simpa [itemCmp, keyLe] using hab
    exact ((hsorted2.sublist (sqlSlice_sublist _ _ _)).chain')

/-- Witness for C8: the invalid-sort branch and the price-desc branch at
concrete stores. -/
theorem sorting_spec_witness :
    (parseSortField ((some "Price" : Option String).getD "id") = none
      ∧ sortedRows ⟨[⟨1, "a", none, none, none, none, 0, 0⟩], 2, 0⟩
          ⟨none, none, none, none, some "Price", some "desc"⟩ =
        filteredRows ⟨[⟨1, "a", none, none, none, none, 0, 0⟩], 2, 0⟩
          ⟨none, none, none, none, some "Price", some "desc"⟩)
    ∧ ((get_items ⟨[⟨1, "a", none, none, some (mkRat 5 1), none, 0, 0⟩,
          ⟨2, "b", none, none, some (mkRat 7 1), none, 0, 0⟩], 3, 0⟩
          ⟨none, none, none, none, some "price", some "desc"⟩).itemsOut =
        some [⟨2, "b", none, none, some (mkRat 7 1), none, 0, 0⟩,
          ⟨1, "a", none, none, some (mkRat 5 1), none, 0, 0⟩]
      ∧ List.Chain' (fun (a b : Item) => optRatLe b.price a.price = true)
          [⟨2, "b", none, none, some (mkRat 7 1), none, 0, 0⟩,
           ⟨1, "a", none, none, some (mkRat 5 1), none, 0, 0⟩]) := by
  refine ⟨⟨by decide, ?_⟩, by decide, ?_⟩
  · exact (sorting_spec.1 ⟨[⟨1, "a", none, none, none, none, 0, 0⟩], 2, 0⟩
      ⟨none, none, none, none, some "Price", some "desc"⟩ (Or.inl (by decide))).1
  · exact sorting_spec.2.1 ⟨[⟨1, "a", none, none, some (mkRat 5 1), none, 0, 0⟩,
        ⟨2, "b", none, none, some (mkRat 7 1), none, 0, 0⟩], 3, 0⟩
      ⟨none, none, none, none, some "price", some "desc"⟩
      [⟨2, "b", none, none, some (mkRat 7 1), none, 0, 0⟩,
       ⟨1, "a", none, none, some (mkRat 5 1), none, 0, 0⟩] rfl rfl (by decide)

end FlaskCrud
